import Mathlib

/-!
Verification of the slack-summarizer core pipeline: a shallow embedding of
the token-aware chunker (`summarizer.py`), the retry combinator
(`lib/utils.py`), and the message retrieval / thread reconstruction /
formatting pipeline (`lib/slack.py`), together with theorems settling the
specified properties.
-/

set_option autoImplicit false

namespace SlackSummarizer

/-! ### Constants from `lib/slack.py` -/

/-- Embeds the constant at the top of `lib/slack.py`. -/
def REPLY_PREFIX : String := " -> "

/-- Embeds `EXCLUDED_SUBTYPES` from `lib/slack.py`. -/
def EXCLUDED_SUBTYPES : List String :=
  ["bot_message", "channel_archive", "me_message",
   "message_change", "message_deleted", "message_replied",
   "reminder_add"]

/-- Embeds `CHANNEL_SUBTYPES` from `lib/slack.py`. -/
def CHANNEL_SUBTYPES : List String :=
  ["channel_join", "channel_leave", "channel_topic",
   "channel_purpose", "channel_name", "channel_unarchive"]

/-- Embeds `FILE_SUBTYPES` from `lib/slack.py`. -/
def FILE_SUBTYPES : List String := ["file_share", "file_comment", "file_mention"]

/-- Embeds `PIN_SUBTYPES` from `lib/slack.py`. -/
def PIN_SUBTYPES : List String := ["pinned_item", "unpinned_item"]

/-- Embeds `ORIGINAL_SUBTYPES` from `lib/slack.py`. -/
def ORIGINAL_SUBTYPES : List String := ["system"]

/-- Embeds `SYSTEM_SUBTYPES` from `lib/slack.py`. -/
def SYSTEM_SUBTYPES : List String :=
  CHANNEL_SUBTYPES ++ FILE_SUBTYPES ++ PIN_SUBTYPES ++ ORIGINAL_SUBTYPES

/-- Python's `s.startswith(pre)` on the embedded strings. -/
def pyStartsWith (s pre : String) : Bool :=
  s.data.take pre.data.length == pre.data

/-! ### The token-aware chunker (`split_messages_by_token_count`, summarizer.py 189-230)

The token estimator (tiktoken) and the `MAX_BODY_TOKENS` environment setting
are opaque collaborators of the function, so they are parameters of the
embedding.  The loop state mirrors the Python local variables
`result` (produced incrementally as the head of the returned list),
`current_sublist`, `current_count` and `thread_start_message`. -/

/-- The update of the Python variable `thread_start_message` at the top of the
chunking loop (summarizer.py lines 209-210): a line that is not
reply-prefixed becomes the current thread-start context. -/
def nextThreadStart (message : String) (thread_start : Option String) : Option String :=
  if pyStartsWith message REPLY_PREFIX then thread_start else some message

/-- The segment closed on overflow (summarizer.py lines 215-217):
`current_sublist.insert(0, thread_start_message)` when the Python truthiness
test `if thread_start_message:` succeeds.  That test is false both for
`None` and for the empty string, which the embedding reproduces. -/
def closedSeg : Option String → List String → List String
  | some t, current_sublist => if t == "" then current_sublist else t :: current_sublist
  | none, current_sublist => current_sublist

/-- The chunking loop of `split_messages_by_token_count`
(summarizer.py lines 207-228), recursing over the remaining messages.
State: `current_sublist`, `current_count`, `thread_start` mirror the Python
locals; closed segments are emitted as the head of the returned list.
Note the overflow branch does not carry the triggering `message` into the
new (empty) segment — exactly as in the source. -/
def splitGo (est : String → Nat) (max_body_tokens : Nat) :
    List String → List String → Nat → Option String → List (List String)
  | [], current_sublist, _, _ =>
      if current_sublist.isEmpty then [] else [current_sublist]
  | message :: rest, current_sublist, current_count, thread_start =>
      if current_count + est message > max_body_tokens then
        closedSeg (nextThreadStart message thread_start) current_sublist ::
          splitGo est max_body_tokens rest [] 0 (nextThreadStart message thread_start)
      else
        splitGo est max_body_tokens rest (current_sublist ++ [message])
          (current_count + est message) (nextThreadStart message thread_start)

/-- Embeds `split_messages_by_token_count` (summarizer.py lines 189-230). -/
def split_messages_by_token_count (est : String → Nat) (max_body_tokens : Nat)
    (messages : List String) : List (List String) :=
  splitGo est max_body_tokens messages [] 0 none

/-! ### The retry combinator (`retry`, lib/utils.py 8-43)

The wrapped operation is modelled as a function from the attempt index to
the outcome of that call: a value, an exception of the designated
`error_type` class, or an exception of a different class.  The observable
behaviour (returned value / raised exception, plus the backoff sleeps
performed, in order) is captured in `RetryOutcome`. -/

/-- Outcome of one underlying call inside the `retry` wrapper. -/
inductive CallResult (α : Type) where
  | ok (a : α)
  | failMatching
  | failOther
deriving DecidableEq

/-- Observable result of the wrapped call: returned value or raised
exception, together with the backoff sleeps performed (in order).
`noneReturn` is Python falling off the end of the loop (only possible when
`max_retries = 0`), returning `None`. -/
inductive RetryOutcome (α : Type) where
  | ok (a : α) (sleeps : List Nat)
  | raisedFinal (sleeps : List Nat)
  | raisedOther (sleeps : List Nat)
  | noneReturn (sleeps : List Nat)
deriving DecidableEq

/-- The `for i in range(max_retries)` loop of `retry` (lib/utils.py lines
31-42).  `remaining` is `max_retries - i`; attempt `i` calls `f i`.  The
Python test `i == max_retries - 1` corresponds to `remaining = 1`. -/
def retryGo {α : Type} (f : Nat → CallResult α) :
    Nat → Nat → Nat → List Nat → RetryOutcome α
  | 0, _, _, sleeps => .noneReturn sleeps
  | remaining + 1, i, sleep_time, sleeps =>
      match f i with
      | .ok a => .ok a sleeps
      | .failOther => .raisedOther sleeps
      | .failMatching =>
          if remaining = 0 then .raisedFinal sleeps
          else retryGo f remaining (i + 1) (sleep_time * 2) (sleeps ++ [sleep_time])

/-- Embeds the `retry` decorator (lib/utils.py lines 8-43) applied to an
operation `f`, where `f i` is the outcome of the call on attempt `i`. -/
def retry {α : Type} (max_retries initial_sleep_time : Nat)
    (f : Nat → CallResult α) : RetryOutcome α :=
  retryGo f max_retries 0 initial_sleep_time []

/-- The doubling backoff schedule: `m` sleeps starting at `s`. -/
def sleepSeq (s : Nat) : Nat → List Nat
  | 0 => []
  | m + 1 => s :: sleepSeq (s * 2) m

/-- Follows the spec's words (spec section 4.1), not the code: the initial
call plus, on each failure of the designated class, up to `retries_left`
further retries, sleeping before each retry starting at `sleep_time` and
doubling after each failed attempt; when the retries are exhausted the final
error is re-raised.  Used only to compare the specified retry count with the
code's. -/
def retrySpecGo {α : Type} (f : Nat → CallResult α) :
    Nat → Nat → Nat → List Nat → RetryOutcome α
  | 0, i, _, sleeps =>
      match f i with
      | .ok a => .ok a sleeps
      | .failOther => .raisedOther sleeps
      | .failMatching => .raisedFinal sleeps
  | retries_left + 1, i, sleep_time, sleeps =>
      match f i with
      | .ok a => .ok a sleeps
      | .failOther => .raisedOther sleeps
      | .failMatching =>
          retrySpecGo f retries_left (i + 1) (sleep_time * 2) (sleeps ++ [sleep_time])

/-- The spec's retry policy ("retries up to `max_retries` times"): one
initial attempt plus up to `max_retries` retries. -/
def retry_spec {α : Type} (max_retries initial_sleep_time : Nat)
    (f : Nat → CallResult α) : RetryOutcome α :=
  retrySpecGo f max_retries 0 initial_sleep_time []

/-- An operation whose every attempt raises the designated error class. -/
def alwaysFailNat : Nat → CallResult Nat := fun _ => .failMatching

/-! ### Raw messages, users and text formatting (lib/slack.py)

A Slack message dict is embedded as `RawMessage`; an absent key is `none`.
`user` is the `"user"` field, present on every message the formatting stage
touches (the code reads it unconditionally there).  A workspace user record
keeps the two fields the code reads: `name` (used by
`replace_user_id_with_name`) and `profile.display_name` (used by
`get_user_name`). -/

/-- A raw Slack message as consumed by `SlackClient.load_messages`. -/
structure RawMessage where
  ts : String
  thread_ts : Option String := none
  subtype : Option String := none
  bot_id : Option String := none
  user : String := ""
  text : String := ""
deriving DecidableEq

/-- A workspace user record, restricted to the fields the code reads. -/
structure UserInfo where
  id : String
  name : String
  display_name : String
deriving DecidableEq

/-- The character class `[A-Z0-9]` of the reference-token regexes. -/
def isIdChar (c : Char) : Bool :=
  decide (('A' ≤ c ∧ c ≤ 'Z') ∨ ('0' ≤ c ∧ c ≤ '9'))

/-- Splits a maximal (possibly empty) run of `[A-Z0-9]` characters off the
front of the list. -/
def scanIdRun : List Char → List Char × List Char
  | [] => ([], [])
  | c :: cs =>
      if isIdChar c then
        let p := scanIdRun cs
        (c :: p.1, p.2)
      else ([], c :: cs)

/-- Tries to match the regex `<@([A-Z0-9]+)>` at the head of the list,
returning the captured id and the remainder after the match. -/
def matchUserRef : List Char → Option (String × List Char)
  | '<' :: '@' :: rest =>
      match scanIdRun rest with
      | ([], _) => none
      | (run, '>' :: after) => some (String.mk run, after)
      | (_, _) => none
  | _ => none

/-- Left-to-right non-overlapping scan for `<@([A-Z0-9]+)>` matches, as
`re.finditer` performs over the original text (lib/slack.py line 358).
The fuel argument bounds the recursion; each step consumes at least one
character, so fuel equal to the length of the list is always enough. -/
def findUserRefsGo : Nat → List Char → List String
  | 0, _ => []
  | _, [] => []
  | fuel + 1, c :: cs =>
      match matchUserRef (c :: cs) with
      | some (id, after) => id :: findUserRefsGo fuel after
      | none => findUserRefsGo fuel cs

/-- All ids captured by `re.finditer(r"<@([A-Z0-9]+)>", body_text)`. -/
def findUserRefs (s : String) : List String :=
  findUserRefsGo s.data.length s.data

/-- Tries to match the regex `<#[A-Z0-9]+>` at the head of the list,
returning the remainder after the match. -/
def matchChannelRef : List Char → Option (List Char)
  | '<' :: '#' :: rest =>
      match scanIdRun rest with
      | ([], _) => none
      | (_, '>' :: after) => some after
      | (_, _) => none
  | _ => none

/-- The scan of `re.sub(r"<#[A-Z0-9]+>", " other channel ", body_text)`
(lib/slack.py line 302): left-to-right, non-overlapping, each match replaced
by the fixed placeholder.  Fuel as in `findUserRefsGo`. -/
def redactGo : Nat → List Char → List Char
  | 0, l => l
  | _, [] => []
  | fuel + 1, c :: cs =>
      match matchChannelRef (c :: cs) with
      | some after => " other channel ".data ++ redactGo fuel after
      | none => c :: redactGo fuel cs

/-- Embeds the channel-reference redaction (lib/slack.py line 302). -/
def redactChannelIds (s : String) : String :=
  String.mk (redactGo s.data.length s.data)

/-- Python's `str.replace`: replace every left-to-right non-overlapping
occurrence of `pat` (never empty at the call sites embedded here).  Fuel as
in `findUserRefsGo`. -/
def strReplaceGo (pat rep : List Char) : Nat → List Char → List Char
  | 0, l => l
  | _, [] => []
  | fuel + 1, c :: cs =>
      if pat.isEmpty then c :: cs
      else if (c :: cs).take pat.length == pat then
        rep ++ strReplaceGo pat rep fuel ((c :: cs).drop pat.length)
      else c :: strReplaceGo pat rep fuel cs

/-- Python's `s.replace(pat, rep)` on the embedded strings. -/
def pyReplace (s pat rep : String) : String :=
  String.mk (strReplaceGo pat.data rep.data s.data.length s.data)

/-- The whitespace class of Python's `str.strip()` (ASCII part). -/
def isPySpace (c : Char) : Bool :=
  decide (c = ' ' ∨ c = '\t' ∨ c = '\n' ∨ c = '\r' ∨ c = '\x0b' ∨ c = '\x0c')

/-- Python's `len(s.strip()) == 0`: every character is whitespace. -/
def pyStripIsEmpty (s : String) : Bool := s.data.all isPySpace

/-- Embeds `SlackClient.get_user_name` (lib/slack.py lines 321-338): the
`profile.display_name` of the first user whose id matches, else `None`. -/
def get_user_name (users : List UserInfo) (user_id : String) : Option String :=
  match users.find? (fun u => u.id == user_id) with
  | some u => some u.display_name
  | none => none

/-- The `next((user['name'] ...), user_id)` lookup inside
`replace_user_id_with_name` (lib/slack.py lines 360-362). -/
def lookupUserName (users : List UserInfo) (user_id : String) : String :=
  match users.find? (fun u => u.id == user_id) with
  | some u => u.name
  | none => user_id

/-- Embeds `SlackClient.replace_user_id_with_name` (lib/slack.py lines
340-364): ids found in the original text, each then replaced (all
occurrences) in the evolving text. -/
def replace_user_id_with_name (users : List UserInfo) (body_text : String) : String :=
  (findUserRefs body_text).foldl
    (fun b id => pyReplace b ("<@" ++ id ++ ">") (lookupUserName users id)) body_text

/-- The `get_user_name(...) or "Somebody"` fallback (lib/slack.py line 293):
Python `or` also treats the empty display name as falsy. -/
def resolvedOrSomebody (users : List UserInfo) (user : String) : String :=
  match get_user_name users user with
  | some dn => if dn == "" then "Somebody" else dn
  | none => "Somebody"

/-- Speaker resolution (lib/slack.py lines 288-293). -/
def speakerName (users : List UserInfo) (m : RawMessage) : String :=
  match m.subtype with
  | some st =>
      if SYSTEM_SUBTYPES.contains st then "System" else resolvedOrSomebody users m.user
  | none => resolvedOrSomebody users m.user

/-- The reply test `"thread_ts" in message and message["ts"] !=
message["thread_ts"]` (lib/slack.py line 308). -/
def is_reply (m : RawMessage) : Bool :=
  match m.thread_ts with
  | some t => !(m.ts == t)
  | none => false

/-- Formats one message (lib/slack.py lines 283-311, loop body): drops
empty-bodied messages, resolves the speaker, escapes newlines, resolves user
references, redacts channel references, prefixes the speaker, and marks
replies. -/
def formatOne (users : List UserInfo) (m : RawMessage) : Option String :=
  if pyStripIsEmpty m.text then none
  else
    some (
      let body1 := pyReplace m.text "\n" "\\n"
      let body2 := replace_user_id_with_name users body1
      let body3 := redactChannelIds body2
      let line := speakerName users m ++ ": " ++ body3
      if is_reply m then REPLY_PREFIX ++ line else line)

/-- The formatting pass over `messages[::-1]` (lib/slack.py lines 282-311):
the assembled sequence is reversed once, in full, then each entry is
formatted and empty-bodied entries are dropped. -/
def formatMessages (users : List UserInfo) (ms : List RawMessage) : List String :=
  (ms.reverse).filterMap (formatOne users)

/-- The subtype/bot filter (lib/slack.py lines 207-208): keep a message iff
its subtype (absent counts as absent, kept) is not excluded and it carries
no `bot_id`. -/
def keepMessage (m : RawMessage) : Bool :=
  (match m.subtype with
   | none => true
   | some st => !(EXCLUDED_SUBTYPES.contains st)) && m.bot_id.isNone

/-- A message with its `fetch_replies` mark (the code mutates the dict). -/
structure MarkedMessage where
  msg : RawMessage
  fetch_replies : Bool
deriving DecidableEq

/-- The dummy thread-start message (lib/slack.py lines 226-233); note it has
no `thread_ts` key and its `text` already contains the "System: " prefix. -/
def dummy_thread_start (thread_ts : String) : RawMessage :=
  { ts := thread_ts, thread_ts := none, subtype := some "system", bot_id := none,
    user := "System", text := "System: Earlier message not retrieved" }

/-- The marking/orphan-handling loop (lib/slack.py lines 210-240).
`allMsgs` is the full filtered list (`messages`), against which the presence
of a thread root is tested; `added` is the `added_thread_starts` set. -/
def markLoop (allMsgs : List RawMessage) :
    List RawMessage → List String → List MarkedMessage
  | [], _ => []
  | m :: rest, added =>
      match m.thread_ts with
      | none => ⟨m, false⟩ :: markLoop allMsgs rest added
      | some tts =>
          if m.ts == tts then ⟨m, true⟩ :: markLoop allMsgs rest added
          else if allMsgs.any (fun msg => msg.ts == tts) then markLoop allMsgs rest added
          else if added.contains tts then ⟨m, true⟩ :: markLoop allMsgs rest added
          else ⟨dummy_thread_start tts, true⟩ :: ⟨m, true⟩ ::
                 markLoop allMsgs rest (tts :: added)

/-- Result of one paginated fetch call: a page with its `has_more` flag, a
`SlackApiError` of the `not_in_channel` kind, any other `SlackApiError`, or
a `None` result. -/
inductive FetchPage where
  | ok (messages : List RawMessage) (has_more : Bool)
  | errNotInChannel
  | errOther
  | resNone
deriving DecidableEq

/-- The per-thread reply pagination loop (lib/slack.py lines 252-278), run
over the finite script of results the successive calls return: each page
contributes `messages[1:]`; an error or `None` page breaks out of the loop,
keeping what was accumulated so far. -/
def fetchRepliesLoop : List FetchPage → List RawMessage
  | [] => []
  | .ok msgs more :: rest => msgs.drop 1 ++ (if more then fetchRepliesLoop rest else [])
  | .errNotInChannel :: _ => []
  | .errOther :: _ => []
  | .resNone :: _ => []

/-- The assembly loop building `all_target_messages` (lib/slack.py lines
247-278): each marked message, followed immediately by its fetched replies
when marked for fetching.  `replyScript ts` is the script of reply pages the
platform returns for the thread identified by `ts`. -/
def assembleAll (replyScript : String → List FetchPage) :
    List MarkedMessage → List RawMessage
  | [] => []
  | mk :: rest =>
      mk.msg :: ((if mk.fetch_replies then fetchRepliesLoop (replyScript mk.msg.ts)
                  else []) ++ assembleAll replyScript rest)

/-- Outcome of the top-level history pagination loop, with the number of
`conversations_join` calls performed.  `aborted` is `return None`;
`exitedProcess` is `sys.exit(1)` after a failed join; `outOfScript` is a
modelling artifact (the finite script of fetch results was exhausted while
the loop would have kept running). -/
inductive HistoryOutcome where
  | fetched (messages : List RawMessage) (joins : Nat)
  | aborted (joins : Nat)
  | exitedProcess (joins : Nat)
  | outOfScript (joins : Nat)
deriving DecidableEq

/-- The `while True` history loop (lib/slack.py lines 170-199), run over the
finite script of results the successive `_fetch_conversations_history`
calls return.  `not_in_channel` triggers a join (succeeding iff `join k` on
the k-th join) and a retry from the top; any other `SlackApiError` or a
`None` result returns `None`; pages accumulate while `has_more`. -/
def load_history (join : Nat → Bool) :
    List FetchPage → List RawMessage → Nat → HistoryOutcome
  | [], _, joins => .outOfScript joins
  | .errNotInChannel :: rest, acc, joins =>
      if join joins then load_history join rest acc (joins + 1)
      else .exitedProcess joins
  | .errOther :: _, _, joins => .aborted joins
  | .resNone :: _, _, joins => .aborted joins
  | .ok msgs more :: rest, acc, joins =>
      if more then load_history join rest (acc ++ msgs) joins
      else .fetched (acc ++ msgs) joins

/-- Result of `load_messages`: the returned value (`None` or the transcript),
`sys.exit(1)`, or the modelling artifact of an exhausted fetch script. -/
inductive LoadResult where
  | done (texts : Option (List String))
  | exitedProcess
  | outOfScript
deriving DecidableEq

/-- Embeds `SlackClient.load_messages` (lib/slack.py lines 107-319):
history pagination, subtype/bot filtering, orphan-reply marking, per-thread
reply fetching, formatting over the reversed assembly, and the empty-result
`None` returns. -/
def load_messages (users : List UserInfo) (historyScript : List FetchPage)
    (join : Nat → Bool) (replyScript : String → List FetchPage) : LoadResult :=
  match load_history join historyScript [] 0 with
  | .outOfScript _ => .outOfScript
  | .exitedProcess _ => .exitedProcess
  | .aborted _ => .done none
  | .fetched messages_info _ =>
      let messages := messages_info.filter keepMessage
      let filtered_messages := markLoop messages messages []
      if filtered_messages.length < 1 then .done none
      else
        let messages_texts :=
          formatMessages users (assembleAll replyScript filtered_messages)
        if messages_texts.length == 0 then .done none
        else .done (some messages_texts)

/-- A script of successful reply pages: every page `ok`, `has_more` set on
all but the last. -/
def okScript : List (List RawMessage) → List FetchPage
  | [] => []
  | [p] => [.ok p false]
  | p :: ps => .ok p true :: okScript ps

/-! ### Concrete scenarios used by individual claims -/

/-- An orphan reply: its thread root `"1"` is outside the fetched window. -/
def orphanReply : RawMessage := { ts := "2", thread_ts := some "1", user := "U1", text := "hello" }

/-- The (unfetched) root of `orphanReply`'s thread, returned as the first
element of the thread-reply fetch per the platform contract. -/
def orphanRoot : RawMessage := { ts := "1", thread_ts := some "1", user := "U1", text := "root msg" }

/-- Reply-fetch script for the orphan scenario. -/
def orphanScript : String → List FetchPage := fun ts =>
  if ts == "1" then [.ok [orphanRoot, orphanReply] false] else [.ok [orphanReply] false]

/-- The transcript the orphan scenario delivers. -/
def orphanDelivered : List String :=
  [" -> Somebody: hello", " -> Somebody: hello",
   "System: System: Earlier message not retrieved"]

/-- A thread root fetched in the window. -/
def c3root : RawMessage := { ts := "1", thread_ts := some "1", user := "U1", text := "start" }

/-- First (older) reply of `c3root`'s thread, in reply-fetch order. -/
def c3r1 : RawMessage := { ts := "2", thread_ts := some "1", user := "U1", text := "one" }

/-- Second (newer) reply of `c3root`'s thread, in reply-fetch order. -/
def c3r2 : RawMessage := { ts := "3", thread_ts := some "1", user := "U1", text := "two" }

/-- Reply-fetch script for the two-reply thread scenario. -/
def c3Script : String → List FetchPage := fun _ => [.ok [c3root, c3r1, c3r2] false]

/-- The transcript the two-reply thread scenario delivers. -/
def c3Delivered : List String :=
  [" -> Somebody: two", " -> Somebody: one", "Somebody: start"]

/-- A thread root whose reply fetch will return a `None` page. -/
def c6root : RawMessage := { ts := "1", thread_ts := some "1", user := "U1", text := "hi" }

/-- A thread root for the multi-page reply-fetch scenario. -/
def c4root : RawMessage := { ts := "1" }

/-- First reply (page 1, after the root). -/
def c4r1 : RawMessage := { ts := "2" }

/-- Second reply (first element of page 2). -/
def c4r2 : RawMessage := { ts := "3" }

/-- Third reply (page 2). -/
def c4r3 : RawMessage := { ts := "4" }

/-! ### Chunker lemmas -/

/-- Dropping the head of a list never increases the summed token estimate. -/
lemma sum_map_drop_one_le (est : String → Nat) (l : List String) :
    ((l.drop 1).map est).sum ≤ (l.map est).sum := by
  cases l with
  | nil => simp
  | cons a l => simp [Nat.le_add_left]

/-- The summed cost of a closed segment, after dropping its (possibly
prepended) first element, is bounded by the cost of the accumulated sublist. -/
lemma closedSeg_drop_one_sum (est : String → Nat) (th : Option String)
    (cur : List String) :
    (((closedSeg th cur).drop 1).map est).sum ≤ (cur.map est).sum := by
  cases th with
  | none => exact sum_map_drop_one_le est cur
  | some t =>
      show (((if t == "" then cur else t :: cur).drop 1).map est).sum ≤ _
      by_cases h : t == ""
      · rw [if_pos h]
        exact sum_map_drop_one_le est cur
      · rw [if_neg h]
        exact Nat.le_refl _

/-- Every element of a closed segment is the prepended context or an element
of the accumulated sublist. -/
lemma mem_closedSeg (th : Option String) (cur : List String) (l : String)
    (h : l ∈ closedSeg th cur) : th = some l ∨ l ∈ cur := by
  cases th with
  | none => exact Or.inr h
  | some t =>
      by_cases he : t == ""
      · simp [closedSeg, he] at h
        exact Or.inr h
      · simp [closedSeg, he] at h
        cases h with
        | inl h => exact Or.inl (by rw [h])
        | inr h => exact Or.inr h

/-- The context tracked by `nextThreadStart` is always one of the lines seen
so far. -/
lemma nextThreadStart_mem (msgs0 : List String) (m : String) (th : Option String)
    (hm : m ∈ msgs0) (hth : ∀ t, th = some t → t ∈ msgs0) :
    ∀ t, nextThreadStart m th = some t → t ∈ msgs0 := by
  intro t ht
  unfold nextThreadStart at ht
  by_cases h : pyStartsWith m REPLY_PREFIX
  · exact hth t (by simpa [h] using ht)
  · simp [h] at ht
    rw [← ht]; exact hm

/-- Loop invariant of the chunker: every emitted segment costs at most the
budget once its first element is dropped, and contains only input lines. -/
lemma splitGo_segments (est : String → Nat) (B : Nat) (msgs0 : List String) :
    ∀ (rest cur : List String) (cnt : Nat) (th : Option String),
      (∀ l ∈ rest, l ∈ msgs0) → (∀ l ∈ cur, l ∈ msgs0) →
      (∀ t, th = some t → t ∈ msgs0) →
      (cur.map est).sum = cnt → cnt ≤ B →
      ∀ seg ∈ splitGo est B rest cur cnt th,
        ((seg.drop 1).map est).sum ≤ B ∧ ∀ l ∈ seg, l ∈ msgs0 := by
  intro rest
  induction rest with
  | nil =>
      intro cur cnt th _ hcur _ hsum hle seg hseg
      by_cases hc : cur.isEmpty
      · simp [splitGo, hc] at hseg
      · simp [splitGo, hc] at hseg
        rcases hseg with rfl
        exact ⟨le_trans (sum_map_drop_one_le est _) (le_of_eq_of_le hsum hle), hcur⟩
  | cons m rest ih =>
      intro cur cnt th hrest hcur hth hsum hle seg hseg
      have hm : m ∈ msgs0 := hrest m (List.mem_cons_self m rest)
      have hrest' : ∀ l ∈ rest, l ∈ msgs0 := fun l hl => hrest l (List.mem_cons_of_mem m hl)
      have hth2 := nextThreadStart_mem msgs0 m th hm hth
      by_cases hover : cnt + est m > B
      · simp only [splitGo, if_pos hover] at hseg
        cases hseg with
        | head =>
            constructor
            · calc (((closedSeg (nextThreadStart m th) cur).drop 1).map est).sum
                    ≤ (cur.map est).sum := closedSeg_drop_one_sum est _ cur
                _ = cnt := hsum
                _ ≤ B := hle
            · intro l hl
              cases mem_closedSeg _ cur l hl with
              | inl h => exact hth2 l h
              | inr h => exact hcur l h
        | tail _ hseg =>
            exact ih [] 0 (nextThreadStart m th) hrest' (by simp) hth2 (by simp)
              (Nat.zero_le B) seg hseg
      · have hfits : cnt + est m ≤ B := Nat.le_of_not_lt hover
        simp only [splitGo, if_neg hover] at hseg
        refine ih (cur ++ [m]) (cnt + est m) (nextThreadStart m th) hrest' ?_ hth2 ?_
          hfits seg hseg
        · intro l hl
          rcases List.mem_append.mp hl with h | h
          · exact hcur l h
          · simp at h; rw [h]; exact hm
        · simp [hsum]

/-- If everything fits in the budget, the loop returns the single segment of
everything accumulated plus everything remaining. -/
lemma splitGo_all_fits (est : String → Nat) (B : Nat) :
    ∀ (rest cur : List String) (cnt : Nat) (th : Option String),
      cnt + (rest.map est).sum ≤ B → cur ++ rest ≠ [] →
      splitGo est B rest cur cnt th = [cur ++ rest] := by
  intro rest
  induction rest with
  | nil =>
      intro cur cnt th _ hne
      cases cur with
      | nil => simp at hne
      | cons a l => simp [splitGo]
  | cons m rest ih =>
      intro cur cnt th hsum hne
      have hc : cnt + est m ≤ B := by
        simp only [List.map_cons, List.sum_cons] at hsum
        omega
      have hrec : (cnt + est m) + (rest.map est).sum ≤ B := by
        simp only [List.map_cons, List.sum_cons] at hsum
        omega
      simp only [splitGo, if_neg (by omega : ¬ cnt + est m > B)]
      rw [ih (cur ++ [m]) (cnt + est m) (nextThreadStart m th) hrec (by simp)]
      simp

/-! ### Further helper lemmas -/

/-- `filterMap` over a reversed list is the reverse of the `filterMap`. -/
lemma filterMap_of_reverse {α β : Type} (f : α → Option β) :
    ∀ l : List α, (l.reverse).filterMap f = (l.filterMap f).reverse := by
  intro l
  induction l with
  | nil => simp
  | cons a l ih =>
      simp only [List.reverse_cons, List.filterMap_append, List.filterMap_cons, ih]
      cases f a <;> simp

/-- On an operation that always raises the designated error class, the retry
loop performs `m` doubling sleeps and then re-raises. -/
lemma retryGo_always_fail (m : Nat) :
    ∀ (i st : Nat) (sleeps : List Nat),
      retryGo alwaysFailNat (m + 1) i st sleeps = .raisedFinal (sleeps ++ sleepSeq st m) := by
  induction m with
  | zero => intro i st sleeps; simp [retryGo, alwaysFailNat, sleepSeq]
  | succ m ih =>
      intro i st sleeps
      rw [show retryGo alwaysFailNat (m + 1 + 1) i st sleeps
            = retryGo alwaysFailNat (m + 1) (i + 1) (st * 2) (sleeps ++ [st]) from rfl,
          ih]
      simp [sleepSeq]

/-- A fully successful paginated reply fetch contributes exactly the tail of
every page, in page order. -/
lemma fetchRepliesLoop_okScript :
    ∀ ps : List (List RawMessage),
      fetchRepliesLoop (okScript ps) = (ps.map (fun p => p.drop 1)).flatten := by
  intro ps
  induction ps with
  | nil => simp [okScript, fetchRepliesLoop]
  | cons p ps ih =>
      cases ps with
      | nil => simp [okScript, fetchRepliesLoop]
      | cons q ps2 => simp [okScript, fetchRepliesLoop, ih]

/-! ### Claims -/

/-- Claim C1 (code bug): the spec says that on overflow the chunker closes
the current segment and then starts a new segment containing exactly the
triggering line, so that no input line is lost.  The code does neither: at
the failing input below (line costs 5 and 10, budget 8), the overflow-
triggering reply line `" -> bbbbbb"` appears in no output segment at all,
and the context line is duplicated into the segment it already led. -/
theorem chunker_drops_overflow_line :
    split_messages_by_token_count (fun s => s.data.length) 8 ["aaaaa", " -> bbbbbb"]
        = [["aaaaa", "aaaaa"]] ∧
    ∀ seg ∈ split_messages_by_token_count (fun s => s.data.length) 8
        ["aaaaa", " -> bbbbbb"], " -> bbbbbb" ∉ seg := by
  decide

/-- Claim C2 (code bug): the spec and the code's own docstring example show
a placeholder line `"System: Earlier message not retrieved"` that precedes
the thread's replies.  At the failing input (a single orphan reply whose
root is missing), the code instead renders the placeholder with a doubled
speaker prefix (`"System: System: ..."`, because the dummy's `text` already
contains `"System: "`) and, after the final full reversal, the placeholder
follows the thread's replies instead of preceding them. -/
theorem placeholder_rendering_at_failing_input :
    load_messages [] [.ok [orphanReply] false] (fun _ => true) orphanScript
        = .done (some orphanDelivered) ∧
    "System: Earlier message not retrieved" ∉ orphanDelivered ∧
    List.indexOf " -> Somebody: hello" orphanDelivered <
      List.indexOf "System: System: Earlier message not retrieved" orphanDelivered := by
  refine ⟨by decide, by decide, by decide⟩

/-- Claim C3 (corrected), counterexample: in the assembled sequence the
thread block is `[c3root, c3r1, c3r2]` (replies in fetch order), yet in the
delivered transcript the line of `c3r2` precedes the line of `c3r1` — the
single full reversal re-reverses each thread's internal reply order, so the
order is not "preserved relative to its block" as the claim states. -/
theorem reply_order_not_preserved :
    load_messages [] [.ok [c3root] false] (fun _ => true) c3Script
        = .done (some c3Delivered) ∧
    assembleAll c3Script (markLoop [c3root] [c3root] []) = [c3root, c3r1, c3r2] ∧
    List.indexOf " -> Somebody: two" c3Delivered <
      List.indexOf " -> Somebody: one" c3Delivered := by
  refine ⟨by decide, by decide, by decide⟩

/-- Claim C3 (amended): the delivered transcript is the per-entry formatted
assembled sequence reversed exactly once, in full (empty-bodied entries
dropped); consequently the reversal applies inside each thread's reply block
as well — a block assembled as root, reply one, reply two is delivered as
reply two, reply one, root — rather than the internal reply order being
preserved. -/
theorem transcript_reversed_once :
    (∀ (users : List UserInfo) (ms : List RawMessage),
        formatMessages users ms = (ms.filterMap (formatOne users)).reverse) ∧
    (∀ (users : List UserInfo) (root r1 r2 : RawMessage) (l0 l1 l2 : String),
        formatOne users root = some l0 → formatOne users r1 = some l1 →
        formatOne users r2 = some l2 →
        formatMessages users [root, r1, r2] = [l2, l1, l0]) := by
  constructor
  · intro users ms
    exact filterMap_of_reverse (formatOne users) ms
  · intro users root r1 r2 l0 l1 l2 h0 h1 h2
    simp [formatMessages, List.filterMap_cons, h0, h1, h2]

/-- Witness for the amended claim C3, at the concrete two-reply thread. -/
theorem transcript_reversed_once_witness :
    formatOne [] c3root = some "Somebody: start" ∧
    formatOne [] c3r1 = some " -> Somebody: one" ∧
    formatOne [] c3r2 = some " -> Somebody: two" ∧
    formatMessages [] [c3root, c3r1, c3r2] = c3Delivered :=
  ⟨by decide, by decide, by decide,
    transcript_reversed_once.2 [] c3root c3r1 c3r2 _ _ _ (by decide) (by decide) (by decide)⟩

/-- Claim C4 (corrected), counterexample: a reply fetch spanning two pages,
page 1 `[c4root, c4r1]` (root first, per the platform contract), page 2
`[c4r2, c4r3]`.  The code drops element 0 of every page, so the genuine
reply `c4r2` is missing from the appended replies, although the claim says
every fetched reply except the thread root is appended. -/
theorem reply_page_head_dropped :
    fetchRepliesLoop [.ok [c4root, c4r1] true, .ok [c4r2, c4r3] false]
        = [c4r1, c4r3] ∧
    c4r2 ∉ [c4r1, c4r3] ∧
    c4r2 ∈ ([c4root, c4r1] ++ [c4r2, c4r3]).drop 1 := by
  refine ⟨by decide, by decide, by decide⟩

/-- Claim C4 (amended): for each message marked to require replies, the code
appends — immediately following the parent, in page order — every fetched
reply except the first element of each page; the root (first element of the
first page) is thus never duplicated, but when the fetch spans several
pages the first element of every later page is dropped as well, even though
it is a genuine reply. -/
theorem reply_append_page_tails :
    (∀ ps : List (List RawMessage),
        fetchRepliesLoop (okScript ps) = (ps.map (fun p => p.drop 1)).flatten) ∧
    (∀ (replyScript : String → List FetchPage) (mk : MarkedMessage)
        (rest : List MarkedMessage),
        assembleAll replyScript (mk :: rest)
          = mk.msg :: ((if mk.fetch_replies then fetchRepliesLoop (replyScript mk.msg.ts)
                        else []) ++ assembleAll replyScript rest)) :=
  ⟨fetchRepliesLoop_okScript, fun _ _ _ => rfl⟩

/-- Claim C5 (corrected), counterexample: two non-reply lines of cost 5 each
with budget 8.  The closed segment gets the thread-start context prepended
and sums to 10 > 8, although no single line's own cost exceeds the budget —
so a segment can exceed the budget without being forced by one too-large
line. -/
theorem chunker_segment_exceeds_budget :
    split_messages_by_token_count (fun s => s.data.length) 8 ["aaaaa", "bbbbb"]
        = [["bbbbb", "aaaaa"]] ∧
    (["bbbbb", "aaaaa"].map (fun s => s.data.length)).sum > 8 ∧
    ∀ l ∈ ["aaaaa", "bbbbb"], (fun s : String => s.data.length) l ≤ 8 := by
  refine ⟨by decide, by decide, by decide⟩

/-- Claim C5 (amended): every segment the chunker produces is within budget
once its first element is dropped — i.e. a segment can exceed the budget
only by the cost of its first line, the possibly-prepended thread-start
context — and every line of every segment is one of the input lines, whole
(no line is truncated or split). -/
theorem chunker_segment_budget (est : String → Nat) (max_body_tokens : Nat)
    (messages : List String) (seg : List String)
    (hseg : seg ∈ split_messages_by_token_count est max_body_tokens messages) :
    ((seg.drop 1).map est).sum ≤ max_body_tokens ∧ ∀ l ∈ seg, l ∈ messages :=
  splitGo_segments est max_body_tokens messages messages [] 0 none
    (fun _ hl => hl) (fun _ h => nomatch h) (fun _ h => nomatch h) rfl
    (Nat.zero_le _) seg hseg

/-- Witness for the amended claim C5, at a concrete in-budget input. -/
theorem chunker_segment_budget_witness :
    ["ab"] ∈ split_messages_by_token_count (fun s => s.data.length) 8 ["ab"] ∧
    ((["ab"].drop 1).map (fun s => s.data.length)).sum ≤ 8 ∧
    ∀ l ∈ ["ab"], l ∈ ["ab"] :=
  ⟨by decide,
    (chunker_segment_budget (fun s => s.data.length) 8 ["ab"] ["ab"] (by decide)).1,
    (chunker_segment_budget (fun s => s.data.length) 8 ["ab"] ["ab"] (by decide)).2⟩

/-- Claim C6 (corrected), counterexample: the history fetch succeeds with
one thread root, but the thread-reply fetch returns a `None` page.  The
retrieval is not aborted: the code merely breaks out of that thread's reply
loop and delivers the partial transcript. -/
theorem reply_none_keeps_partial_data :
    load_messages [] [.ok [c6root] false] (fun _ => true) (fun _ => [.resNone])
        = .done (some ["Somebody: hi"]) ∧
    LoadResult.done (some ["Somebody: hi"]) ≠ .done none := by
  refine ⟨by decide, by decide⟩

/-- Claim C6 (amended): a `None` page from the top-level history fetch
aborts the whole retrieval for the channel, returning no result; a `None`
page from a thread-reply fetch only ends that thread's reply fetching
(keeping the replies gathered from earlier pages) and the channel's
retrieval continues with partial data. -/
theorem none_page_policy :
    (∀ (join : Nat → Bool) (rest : List FetchPage) (acc : List RawMessage)
        (joins : Nat),
        load_history join (.resNone :: rest) acc joins = .aborted joins) ∧
    (∀ rest : List FetchPage, fetchRepliesLoop (.resNone :: rest) = []) ∧
    (∀ (p : List RawMessage) (rest : List FetchPage),
        fetchRepliesLoop (.ok p true :: .resNone :: rest) = p.drop 1) := by
  refine ⟨fun _ _ _ _ => rfl, fun _ => rfl, fun p rest => ?_⟩
  simp [fetchRepliesLoop]

/-- Claim C7 (corrected), counterexample: two consecutive `not_in_channel`
errors.  The second occurrence triggers a second join-and-retry (the join
counter reaches 2) instead of being fatal: the run neither aborts nor exits
after the first recovery. -/
theorem second_membership_error_joins_again :
    load_history (fun _ => true) (List.replicate 2 .errNotInChannel) [] 0
        = .outOfScript 2 ∧
    HistoryOutcome.outOfScript 2 ≠ .aborted 1 ∧
    HistoryOutcome.outOfScript 2 ≠ .exitedProcess 1 := by
  refine ⟨by decide, by decide, by decide⟩

/-- Claim C7 (amended): on every occurrence of the membership error the
client joins the channel (exiting the process only if the join itself
reports failure) and retries the fetch from the top; this join-and-retry is
not limited to once per fetch attempt — under a persistently recurring
membership error the loop performs one join per occurrence, indefinitely,
and never reaches a fatal stop. -/
theorem membership_error_retry_unbounded :
    ∀ (n : Nat) (acc : List RawMessage) (joins : Nat),
      load_history (fun _ => true) (List.replicate n .errNotInChannel) acc joins
        = .outOfScript (joins + n) := by
  intro n
  induction n with
  | zero => intro acc joins; simp [List.replicate, load_history]
  | succ n ih =>
      intro acc joins
      rw [List.replicate_succ]
      rw [show load_history (fun _ => true)
            (.errNotInChannel :: List.replicate n .errNotInChannel) acc joins
          = load_history (fun _ => true) (List.replicate n .errNotInChannel) acc
              (joins + 1) from rfl]
      rw [ih]
      congr 1
      omega

/-- Claim C8 (corrected), counterexample: with `max_retries = 1` the code
raises the first matching failure immediately, performing zero retries and
zero sleeps, whereas the policy as specified ("retries up to max_retries
times, sleeping initial_sleep_time before the first retry") performs one
retry after a 10-second sleep before giving up. -/
theorem retry_attempt_count_counterexample :
    retry 1 10 alwaysFailNat = .raisedFinal [] ∧
    retry_spec 1 10 alwaysFailNat = .raisedFinal [10] ∧
    (RetryOutcome.raisedFinal [] : RetryOutcome Nat) ≠ .raisedFinal [10] := by
  refine ⟨rfl, rfl, by decide⟩

/-- Claim C8 (amended): the wrapper makes up to `max_retries` attempts in
total — that is, it retries a matching failure up to `max_retries - 1`
times — sleeping `initial_sleep_time` before the first retry and doubling
the sleep after each failed attempt, and re-raises the error of the final
attempt on exhaustion; an immediate success returns the value with no
sleep; a non-matching exception propagates at once, uncaught; and with
`max_retries = 0` the wrapper calls nothing and returns `None`. -/
theorem retry_behavior :
    (∀ m s : Nat, retry (m + 1) s alwaysFailNat = .raisedFinal (sleepSeq s m)) ∧
    (∀ (m s a : Nat), retry (m + 1) s (fun _ => CallResult.ok a) = .ok a []) ∧
    (∀ m s : Nat,
        retry (m + 1) s (fun _ => (CallResult.failOther : CallResult Nat))
          = .raisedOther []) ∧
    (∀ (s : Nat) (f : Nat → CallResult Nat), retry 0 s f = .noneReturn []) := by
  refine ⟨fun m s => ?_, fun m s a => rfl, fun m s => rfl, fun s f => rfl⟩
  simpa using retryGo_always_fail m 0 s []

/-- Claim C9 (corrected), counterexample: the empty transcript has total
cost 0, within any budget, yet the chunker returns no segment at all rather
than exactly one segment equal to the whole (empty) input. -/
theorem chunker_empty_input_counterexample :
    split_messages_by_token_count (fun s => s.data.length) 8 [] = [] ∧
    (([] : List String).map (fun s => s.data.length)).sum ≤ 8 ∧
    ([] : List (List String)) ≠ [[]] := by
  refine ⟨rfl, by decide, by decide⟩

/-- Claim C9 (amended): for every nonempty input transcript whose total
estimated token cost is within the budget, the chunker returns exactly one
segment equal to the whole input list. -/
theorem chunker_under_budget_single_segment (est : String → Nat)
    (max_body_tokens : Nat) (messages : List String) (hne : messages ≠ [])
    (hsum : (messages.map est).sum ≤ max_body_tokens) :
    split_messages_by_token_count est max_body_tokens messages = [messages] := by
  have h := splitGo_all_fits est max_body_tokens messages [] 0 none
    (by simpa using hsum) (by simpa using hne)
  simpa using h

/-- Witness for the amended claim C9, at a concrete in-budget input. -/
theorem chunker_under_budget_single_segment_witness :
    (["abc"] : List String) ≠ [] ∧
    ((["abc"] : List String).map (fun s => s.data.length)).sum ≤ 9 ∧
    split_messages_by_token_count (fun s => s.data.length) 9 ["abc"] = [["abc"]] :=
  ⟨by decide, by decide,
    chunker_under_budget_single_segment (fun s => s.data.length) 9 ["abc"]
      (by decide) (by decide)⟩

/-- Claim C10 (confirmed): on an input whose first line is reply-prefixed
and alone exceeds the budget, with no preceding non-reply line, the chunker
emits an empty segment and the oversized line appears in no segment. -/
theorem chunker_emits_empty_segment :
    split_messages_by_token_count (fun s => s.data.length) 3 [" -> xxxx"] = [[]] ∧
    ([] : List String) ∈ split_messages_by_token_count (fun s => s.data.length) 3
        [" -> xxxx"] ∧
    ∀ seg ∈ split_messages_by_token_count (fun s => s.data.length) 3 [" -> xxxx"],
      " -> xxxx" ∉ seg := by
  decide

end SlackSummarizer
